import Mathlib

/-!
Verification of the Bangalore house-price prediction service.

Shallow embedding of the two source files:
 * `src/server/main.py` — FastAPI service: pydantic request validation
   (field ranges + cross-field rules), feature vectorization in the order
   loaded from the model artifact, and two HTTP entry points
   (`POST /predict` and `GET /predict/bhk`).
 * `src/frontend/app_ui.py` — Streamlit client: advisory `validate_inputs`
   mirror of the validation rules.

Python floats are modelled as `ℚ` (all values and comparisons the claims
touch are exact), Python ints as `ℤ`.  Exceptions are modelled with
explicit outcome types: a pydantic `ValueError` in a validator becomes a
rule-error value, a `ZeroDivisionError` becomes a distinguished crash
value, and the HTTP layer distinguishes 200 responses, client errors
(`HTTPException` / `RequestValidationError` → 400/422) and unhandled
exceptions (→ 500).
-/

set_option autoImplicit false

namespace HousePrice

/-- A predictor is the opaque pickled model: given a feature vector, it
returns a price or throws (modelled as `Except` with the message). -/
def Predictor : Type := List ℚ → Except String ℚ

/-- `PredictRequest` fields (main.py lines 42-47): the five typed fields
of the pydantic schema. -/
structure PredictRequest where
  bath : ℤ
  balcony : ℤ
  total_sqft_int : ℚ
  bhk : ℤ
  price_per_sqft : ℚ
deriving Repr, DecidableEq

/-- Pydantic field-level constraint violations (main.py lines 43-47):
pydantic checks every field and reports all violated field constraints,
one entry per violated field. -/
def fieldErrors (bath balcony : ℤ) (total_sqft_int : ℚ) (bhk : ℤ)
    (price_per_sqft : ℚ) : List String :=
  (if bath < 1 ∨ 12 < bath then ["bath"] else []) ++
  (if balcony < 0 ∨ 6 < balcony then ["balcony"] else []) ++
  (if total_sqft_int ≤ 200 then ["total_sqft_int"] else []) ++
  (if bhk < 1 ∨ 12 < bhk then ["bhk"] else []) ++
  (if price_per_sqft ≤ 0 then ["price_per_sqft"] else [])

/-- Outcome of the `logical_rules` model validator (main.py lines 50-58).
`invalid` is the `ValueError` pydantic turns into a validation error;
`crash` is the `ZeroDivisionError` Python would raise when dividing by a
zero `bhk` (it is not a `ValueError`, so pydantic would not catch it). -/
inductive RuleOutcome where
  | ok (r : PredictRequest)
  | invalid (msg : String)
  | crash
deriving Repr, DecidableEq

/-- `PredictRequest.logical_rules` (main.py lines 50-58): fail-fast on
the first violated cross-field rule. -/
def logical_rules (r : PredictRequest) : RuleOutcome :=
  if r.bath > r.bhk + 2 then
    .invalid "Invalid: bath should typically be ≤ (bhk + 2)."
  else if r.bhk = 0 then
    .crash
  else if r.total_sqft_int / (r.bhk : ℚ) < 350 then
    .invalid "Invalid: sqft per BHK must be ≥ 350 (data cleaning rule)."
  else
    .ok r

/-- Outcome of constructing `PredictRequest(...)` through pydantic:
field checks run first and collect every violated field constraint; the
`mode="after"` model validator runs only once all fields are valid. -/
inductive ValidateOutcome where
  | ok (r : PredictRequest)
  | fieldInvalid (errs : List String)
  | ruleInvalid (msg : String)
  | crash
deriving Repr, DecidableEq

/-- Whether the outcome is a successfully validated request. -/
def ValidateOutcome.isOk : ValidateOutcome → Bool
  | .ok _ => true
  | _ => false

/-- Full pydantic validation of `PredictRequest` from the five raw field
values (main.py lines 42-58). -/
def predictRequestValidate (bath balcony : ℤ) (total_sqft_int : ℚ)
    (bhk : ℤ) (price_per_sqft : ℚ) : ValidateOutcome :=
  let errs := fieldErrors bath balcony total_sqft_int bhk price_per_sqft
  if errs.isEmpty then
    match logical_rules ⟨bath, balcony, total_sqft_int, bhk, price_per_sqft⟩ with
    | .ok r => .ok r
    | .invalid m => .ruleInvalid m
    | .crash => .crash
  else
    .fieldInvalid errs

/-- The hardcoded fallback column order of main.py line 38, also the
order stored in the shipped artifact. -/
def DEFAULT_FEATURE_ORDER : List String :=
  ["bath", "balcony", "total_sqft_int", "bhk", "price_per_sqft"]

/-- The pickled payload (main.py lines 34-38): a dict that may hold a
`model` entry and may hold a `feature_order` entry. -/
structure PicklePayload where
  model : Option Predictor
  feature_order : Option (List String)

/-- Process-wide state set once at startup (main.py lines 37-38). -/
structure ServerState where
  MODEL : Predictor
  FEATURE_ORDER : List String

/-- Startup (main.py lines 34-38): `payload["model"]` raises `KeyError`
(process fails to start, `none`) when the entry is missing;
`payload.get("feature_order", default)` falls back to the hardcoded
order when the entry is missing. -/
def startup (p : PicklePayload) : Option ServerState :=
  match p.model with
  | none => none
  | some m => some ⟨m, p.feature_order.getD DEFAULT_FEATURE_ORDER⟩

/-- The dict built by `make_feature_vector` (main.py lines 70-76);
`none` is the `KeyError` a lookup of any other name would raise. -/
def feature_map (r : PredictRequest) : String → Option ℚ
  | "bath" => some (r.bath : ℚ)
  | "balcony" => some (r.balcony : ℚ)
  | "total_sqft_int" => some r.total_sqft_int
  | "bhk" => some (r.bhk : ℚ)
  | "price_per_sqft" => some r.price_per_sqft
  | _ => none

/-- `make_feature_vector` (main.py lines 68-78): look up each name of
`FEATURE_ORDER` in the feature map, left to right, as the list
comprehension does.  `none` models the `KeyError` raised on the first
name the request does not have. -/
def make_feature_vector (order : List String) (r : PredictRequest) :
    Option (List ℚ) :=
  match order with
  | [] => some []
  | name :: rest =>
    match feature_map r name, make_feature_vector rest r with
    | some v, some vs => some (v :: vs)
    | _, _ => none

/-- `PredictResponse` (main.py lines 60-63). -/
structure PredictResponse where
  predicted_price_lakhs : ℚ
  feature_order : List String
  features_used : List ℚ
deriving Repr, DecidableEq

/-- `round(x, 2)` on the predicted price (main.py line 97), modelled as
rounding to the nearest multiple of 1/100 (tie behavior is immaterial to
every property proved below). -/
def round2 (q : ℚ) : ℚ := (round (q * 100) : ℚ) / 100

/-- Result of an HTTP call: a 200 with a `PredictResponse`, a client
error raised as `HTTPException` or `RequestValidationError`
(status 400 or 422), or a 500 from an exception no handler catches. -/
inductive HttpResult where
  | ok (resp : PredictResponse)
  | clientError (status : ℕ) (detail : String)
  | serverError (detail : String)
deriving Repr, DecidableEq

/-- The `predict` route handler body (main.py lines 92-102), entered
with an already-validated request: build the vector, call the model, and
turn any exception of either step into an `HTTPException` 400 whose
detail is prefixed with "Prediction failed: ". -/
def predict (st : ServerState) (req : PredictRequest) : HttpResult :=
  match make_feature_vector st.FEATURE_ORDER req with
  | none => .clientError 400 "Prediction failed: KeyError"
  | some x =>
    match st.MODEL x with
    | .error e => .clientError 400 ("Prediction failed: " ++ e)
    | .ok y => .ok ⟨round2 y, st.FEATURE_ORDER, x⟩

/-- `POST /predict` (main.py lines 91-102): FastAPI parses the body into
`PredictRequest`; any pydantic validation failure (field-level or the
model validator) is a `RequestValidationError`, returned as 422 before
the handler runs.  A `ZeroDivisionError` inside the validator would not
be a pydantic error and would surface as a 500. -/
def postPredict (st : ServerState) (bath balcony : ℤ) (total_sqft_int : ℚ)
    (bhk : ℤ) (price_per_sqft : ℚ) : HttpResult :=
  match predictRequestValidate bath balcony total_sqft_int bhk price_per_sqft with
  | .ok r => predict st r
  | .fieldInvalid errs => .clientError 422 (String.intercalate "; " errs)
  | .ruleInvalid m => .clientError 422 m
  | .crash => .serverError "ZeroDivisionError"

/-- FastAPI validation of the path and query parameters of
`GET /predict/bhk` (main.py lines 111-116): the `Path`/`Query`
range constraints, checked before the handler body runs, collecting all
violations into one `RequestValidationError`. -/
def queryParamErrors (bhk bath balcony : ℤ) (total_sqft_int price_per_sqft : ℚ) :
    List String :=
  (if bhk < 1 ∨ 12 < bhk then ["bhk"] else []) ++
  (if bath < 1 ∨ 12 < bath then ["bath"] else []) ++
  (if balcony < 0 ∨ 6 < balcony then ["balcony"] else []) ++
  (if total_sqft_int ≤ 200 then ["total_sqft_int"] else []) ++
  (if price_per_sqft ≤ 0 then ["price_per_sqft"] else [])

/-- `GET /predict/bhk` (main.py lines 106-125): after FastAPI's
parameter validation (422 on violation), the handler body constructs
`PredictRequest(...)` itself.  A pydantic `ValidationError` raised by
that constructor is NOT caught by anything (it is not a
`RequestValidationError` and not an `HTTPException`), so it surfaces as
an HTTP 500.  On success the handler delegates to `predict`. -/
def predict_via_query (st : ServerState) (bhk bath balcony : ℤ)
    (total_sqft_int price_per_sqft : ℚ) : HttpResult :=
  let errs := queryParamErrors bhk bath balcony total_sqft_int price_per_sqft
  if errs.isEmpty then
    match predictRequestValidate bath balcony total_sqft_int bhk price_per_sqft with
    | .ok r => predict st r
    | .fieldInvalid errs => .serverError ("ValidationError: " ++ String.intercalate "; " errs)
    | .ruleInvalid m => .serverError ("ValidationError: " ++ m)
    | .crash => .serverError "ZeroDivisionError"
  else
    .clientError 422 (String.intercalate "; " errs)

/-- The documented defaults of the query parameters
(main.py lines 113-116): `bath=2, balcony=1, total_sqft_int=1000.0,
price_per_sqft=6000.0`. -/
def predict_via_query_defaults (st : ServerState) (bhk : ℤ) : HttpResult :=
  predict_via_query st bhk 2 1 1000 6000

/-! ## Client (`src/frontend/app_ui.py`) -/

/-- The five field-level checks of `validate_inputs` (app_ui.py lines
57-61): one message appended per violated check. -/
def clientFieldIssues (bhk bath balcony : ℤ) (sqft pps : ℚ) : List String :=
  (if bhk < 1 ∨ 12 < bhk then ["BHK must be between 1 and 12."] else []) ++
  (if bath < 1 ∨ 12 < bath then ["Bathrooms must be between 1 and 12."] else []) ++
  (if balcony < 0 ∨ 6 < balcony then ["Balconies must be between 0 and 6."] else []) ++
  (if sqft ≤ 200 then ["Total sqft must be > 200."] else []) ++
  (if pps ≤ 0 then ["Price per sqft must be > 0."] else [])

/-- `validate_inputs` (app_ui.py lines 54-67): the field-level checks,
then the two advisory cross-field mirrors.  The area rule divides
`sqft / bhk` behind the short-circuit guard `bhk >= 1`; `none` models
the `ZeroDivisionError` an unguarded division by a zero `bhk` would
raise. -/
def validate_inputs (bhk bath balcony : ℤ) (sqft pps : ℚ) :
    Option (List String) :=
  let base := clientFieldIssues bhk bath balcony sqft pps
  let withArea : Option (List String) :=
    if 1 ≤ bhk then
      if (bhk : ℚ) = 0 then
        none
      else if sqft / (bhk : ℚ) < 350 then
        some (base ++ ["Sqft per BHK should be ≥ 350 (data cleaning rule)."])
      else
        some base
    else
      some base
  withArea.map (fun l =>
    l ++ (if bath > bhk + 2 then ["Bathrooms should typically be ≤ (BHK + 2)."] else []))

/-- A sample predictor used only to instantiate theorems at concrete
inputs: sums the feature vector. -/
def demoModel : Predictor := fun x => .ok (x.foldl (· + ·) 0)

/-- A predictor that always throws, as a shape-mismatch would. -/
def failingModel : Predictor := fun _ => .error "shape mismatch"

/-- Server state as started from the shipped artifact. -/
def demoState : ServerState := ⟨demoModel, DEFAULT_FEATURE_ORDER⟩

/-! ## Helper lemmas -/

theorem ite_single_nil_iff {c : Prop} [Decidable c] (x : String) :
    ((if c then [x] else []) = []) ↔ ¬ c := by
  split <;> simp_all

theorem fieldErrors_nil_iff (bath balcony : ℤ) (sqft : ℚ) (bhk : ℤ) (pps : ℚ) :
    fieldErrors bath balcony sqft bhk pps = [] ↔
      (1 ≤ bath ∧ bath ≤ 12 ∧ 0 ≤ balcony ∧ balcony ≤ 6 ∧ 200 < sqft ∧
        1 ≤ bhk ∧ bhk ≤ 12 ∧ 0 < pps) := by
  simp only [fieldErrors, List.append_eq_nil, ite_single_nil_iff]
  push_neg
  tauto

theorem queryParamErrors_nil_iff (bhk bath balcony : ℤ) (sqft pps : ℚ) :
    queryParamErrors bhk bath balcony sqft pps = [] ↔
      (1 ≤ bhk ∧ bhk ≤ 12 ∧ 1 ≤ bath ∧ bath ≤ 12 ∧ 0 ≤ balcony ∧ balcony ≤ 6 ∧
        200 < sqft ∧ 0 < pps) := by
  simp only [queryParamErrors, List.append_eq_nil, ite_single_nil_iff]
  push_neg
  tauto

theorem validate_ok_fieldErrors_nil {bath balcony bhk : ℤ} {sqft pps : ℚ}
    {r : PredictRequest}
    (h : predictRequestValidate bath balcony sqft bhk pps = .ok r) :
    fieldErrors bath balcony sqft bhk pps = [] := by
  by_contra hne
  simp [predictRequestValidate, List.isEmpty_iff, hne] at h

/-! ## Claims -/

/-- C1: for every set of the five field values that passes validation,
the `POST /predict` handler and the `GET /predict/bhk` handler return
the identical `HttpResult` — in particular identical
`predicted_price_lakhs`, `feature_order` and `features_used` — because
the path/query handler delegates to the same
validate + vectorize + predict path. -/
theorem post_and_get_agree_on_valid (st : ServerState) (bath balcony bhk : ℤ)
    (sqft pps : ℚ) (r : PredictRequest)
    (h : predictRequestValidate bath balcony sqft bhk pps = .ok r) :
    postPredict st bath balcony sqft bhk pps =
      predict_via_query st bhk bath balcony sqft pps ∧
    postPredict st bath balcony sqft bhk pps = predict st r := by
  have hf : fieldErrors bath balcony sqft bhk pps = [] :=
    validate_ok_fieldErrors_nil h
  have hq : queryParamErrors bhk bath balcony sqft pps = [] := by
    rw [queryParamErrors_nil_iff]
    rw [fieldErrors_nil_iff] at hf
    tauto
  constructor <;>
    simp [postPredict, predict_via_query, hq, h]

theorem post_and_get_agree_on_valid_witness :
    postPredict demoState 2 1 1000 2 6000 =
      predict_via_query demoState 2 2 1 1000 6000 :=
  (post_and_get_agree_on_valid demoState 2 1 2 1000 6000 ⟨2, 1, 1000, 2, 6000⟩
    (by simp [predictRequestValidate, fieldErrors, logical_rules]; norm_num)).1

/-- C2 (failing input): calling `GET /predict/3` with the documented
default query values violates the area-per-bedroom cross-field rule;
the pydantic `ValidationError` raised by the `PredictRequest(...)`
constructor inside the handler body is caught by no handler, so the
service answers HTTP 500, not the 400/422 client error the claim
requires.  The predictor is never invoked: the result is the same for
every server state. -/
theorem get_cross_rule_violation_gives_500 (st : ServerState) :
    predict_via_query st 3 2 1 1000 6000 =
      .serverError
        "ValidationError: Invalid: sqft per BHK must be ≥ 350 (data cleaning rule)." := by
  simp [predict_via_query, queryParamErrors, predictRequestValidate, fieldErrors,
    logical_rules]
  norm_num
  rfl

/-- C3 (counterexample): a payload that stores a model but no
`feature_order` entry still lets the process start, and the started
server then uses the hardcoded fallback order of main.py line 38 —
an order independent of anything the artifact declares. -/
theorem startup_substitutes_hardcoded_order :
    startup ⟨some demoModel, none⟩ =
      some ⟨demoModel, DEFAULT_FEATURE_ORDER⟩ ∧
    (⟨some demoModel, none⟩ : PicklePayload).feature_order = none :=
  ⟨rfl, rfl⟩

/-- C3 (amended): whenever the process starts, the loaded
`FEATURE_ORDER` equals the list stored in the artifact when the
artifact stores one; only when the artifact stores no
`feature_order` entry does the server fall back to the hardcoded
default order. -/
theorem feature_order_follows_artifact (p : PicklePayload) (m : Predictor)
    (hm : p.model = some m) :
    ∃ st, startup p = some st ∧ st.MODEL = m ∧
      (∀ l, p.feature_order = some l → st.FEATURE_ORDER = l) ∧
      (p.feature_order = none → st.FEATURE_ORDER = DEFAULT_FEATURE_ORDER) := by
  refine ⟨⟨m, p.feature_order.getD DEFAULT_FEATURE_ORDER⟩, ?_, rfl, ?_, ?_⟩
  · simp [startup, hm]
  · intro l hl
    simp [hl]
  · intro hl
    simp [hl]

theorem feature_order_follows_artifact_witness :
    ∃ st, startup ⟨some demoModel, some ["bhk"]⟩ = some st ∧
      st.FEATURE_ORDER = ["bhk"] := by
  obtain ⟨st, h1, -, h3, -⟩ :=
    feature_order_follows_artifact ⟨some demoModel, some ["bhk"]⟩ demoModel rfl
  exact ⟨st, h1, h3 _ rfl⟩

/-- C4: every input satisfying the five field-range constraints and the
two cross-field rules is accepted by validation, and vectorization over
the artifact's order produces the vector that lists exactly the request
fields named by the order, position by position, with the same length
as the order. -/
theorem valid_input_accepted_and_vectorized (bath balcony bhk : ℤ)
    (sqft pps : ℚ)
    (h1 : 1 ≤ bath) (h2 : bath ≤ 12) (h3 : 0 ≤ balcony) (h4 : balcony ≤ 6)
    (h5 : 200 < sqft) (h6 : 1 ≤ bhk) (h7 : bhk ≤ 12) (h8 : 0 < pps)
    (h9 : bath ≤ bhk + 2) (h10 : 350 ≤ sqft / (bhk : ℚ)) :
    predictRequestValidate bath balcony sqft bhk pps =
      .ok ⟨bath, balcony, sqft, bhk, pps⟩ ∧
    make_feature_vector DEFAULT_FEATURE_ORDER ⟨bath, balcony, sqft, bhk, pps⟩ =
      some [(bath : ℚ), (balcony : ℚ), sqft, (bhk : ℚ), pps] ∧
    ([(bath : ℚ), (balcony : ℚ), sqft, (bhk : ℚ), pps] : List ℚ).length =
      DEFAULT_FEATURE_ORDER.length := by
  have hf : fieldErrors bath balcony sqft bhk pps = [] :=
    (fieldErrors_nil_iff bath balcony sqft bhk pps).mpr
      ⟨h1, h2, h3, h4, h5, h6, h7, h8⟩
  have hb0 : ¬ (bhk = 0) := by omega
  refine ⟨?_, ?_, rfl⟩
  · simp [predictRequestValidate, hf, logical_rules, not_lt.mpr h9, hb0,
      not_lt.mpr h10]
  · simp [make_feature_vector, DEFAULT_FEATURE_ORDER, feature_map]

theorem valid_input_accepted_and_vectorized_witness :
    predictRequestValidate 2 1 1000 2 6000 = .ok ⟨2, 1, 1000, 2, 6000⟩ ∧
    make_feature_vector DEFAULT_FEATURE_ORDER ⟨2, 1, 1000, 2, 6000⟩ =
      some [(2 : ℚ), 1, 1000, 2, 6000] ∧
    ([(2 : ℚ), 1, 1000, 2, 6000] : List ℚ).length = DEFAULT_FEATURE_ORDER.length := by
  have h := valid_input_accepted_and_vectorized 2 1 2 1000 6000
    (by norm_num) (by norm_num) (by norm_num) (by norm_num) (by norm_num)
    (by norm_num) (by norm_num) (by norm_num) (by norm_num) (by norm_num)
  exact_mod_cast h

/-- C5: whenever `predict` answers 200, the `features_used` it reports
is exactly the vector the vectorizer independently constructs from the
same validated request and the loaded feature order — the literal
vector handed to the predictor. -/
theorem features_used_roundtrip (st : ServerState) (r : PredictRequest)
    (resp : PredictResponse) (h : predict st r = .ok resp) :
    make_feature_vector st.FEATURE_ORDER r = some resp.features_used := by
  cases hv : make_feature_vector st.FEATURE_ORDER r with
  | none => simp [predict, hv] at h
  | some x =>
    cases hm : st.MODEL x with
    | error e => simp [predict, hv, hm] at h
    | ok y =>
      simp only [predict, hv, hm, HttpResult.ok.injEq] at h
      rw [← h]

theorem features_used_roundtrip_witness :
    make_feature_vector demoState.FEATURE_ORDER ⟨2, 1, 1000, 2, 6000⟩ =
      some (⟨7005, DEFAULT_FEATURE_ORDER, [2, 1, 1000, 2, 6000]⟩ :
        PredictResponse).features_used :=
  features_used_roundtrip demoState ⟨2, 1, 1000, 2, 6000⟩
    ⟨7005, DEFAULT_FEATURE_ORDER, [2, 1, 1000, 2, 6000]⟩
    (by
      simp [predict, demoState, make_feature_vector, DEFAULT_FEATURE_ORDER,
        feature_map, demoModel, round2]
      norm_num [round_eq])

/-- C7: if the predictor throws at call time on the vector built for a
request, the `predict` handler catches the exception and answers an
HTTP 400 client error carrying a detail message — the process does not
crash and no 200 is produced. -/
theorem predictor_exception_caught (st : ServerState) (r : PredictRequest)
    (x : List ℚ) (e : String)
    (hx : make_feature_vector st.FEATURE_ORDER r = some x)
    (he : st.MODEL x = .error e) :
    predict st r = .clientError 400 ("Prediction failed: " ++ e) ∧
    ∀ resp, predict st r ≠ .ok resp := by
  have hp : predict st r = .clientError 400 ("Prediction failed: " ++ e) := by
    simp [predict, hx, he]
  exact ⟨hp, fun resp hok => by rw [hp] at hok; exact HttpResult.noConfusion hok⟩

theorem predictor_exception_caught_witness :
    predict ⟨failingModel, DEFAULT_FEATURE_ORDER⟩ ⟨2, 1, 1000, 2, 6000⟩ =
      .clientError 400 ("Prediction failed: " ++ "shape mismatch") :=
  (predictor_exception_caught ⟨failingModel, DEFAULT_FEATURE_ORDER⟩
    ⟨2, 1, 1000, 2, 6000⟩ [2, 1, 1000, 2, 6000] "shape mismatch"
    (by simp [make_feature_vector, DEFAULT_FEATURE_ORDER, feature_map])
    rfl).1

/-- C6: boundary behavior of the cross-field rules, for inputs passing
the field-level range checks: a ratio of exactly 350 sqft per bedroom
is accepted and any ratio strictly below 350 is rejected with a rule
error; a bathroom count of exactly `bhk + 2` is accepted and `bhk + 3`
is rejected with a rule error. -/
theorem validation_boundary (bath balcony bhk : ℤ) (sqft pps : ℚ)
    (hf : fieldErrors bath balcony sqft bhk pps = []) :
    (bath ≤ bhk + 2 → sqft / (bhk : ℚ) = 350 →
      predictRequestValidate bath balcony sqft bhk pps =
        .ok ⟨bath, balcony, sqft, bhk, pps⟩) ∧
    (sqft / (bhk : ℚ) < 350 →
      ∃ m, predictRequestValidate bath balcony sqft bhk pps = .ruleInvalid m) ∧
    (bath = bhk + 2 → 350 ≤ sqft / (bhk : ℚ) →
      predictRequestValidate bath balcony sqft bhk pps =
        .ok ⟨bath, balcony, sqft, bhk, pps⟩) ∧
    (bath = bhk + 3 →
      ∃ m, predictRequestValidate bath balcony sqft bhk pps = .ruleInvalid m) := by
  have hbhk : 1 ≤ bhk :=
    ((fieldErrors_nil_iff bath balcony sqft bhk pps).mp hf).2.2.2.2.2.1
  have hb0 : ¬ (bhk = 0) := by omega
  refine ⟨?_, ?_, ?_, ?_⟩
  · intro h9 h350
    simp [predictRequestValidate, hf, logical_rules, not_lt.mpr h9, hb0, h350]
  · intro hlt
    by_cases hb : bath > bhk + 2
    · exact ⟨"Invalid: bath should typically be ≤ (bhk + 2).",
        by simp [predictRequestValidate, hf, logical_rules, hb]⟩
    · exact ⟨"Invalid: sqft per BHK must be ≥ 350 (data cleaning rule).",
        by simp [predictRequestValidate, hf, logical_rules, hb, hb0, hlt]⟩
  · intro hb h350
    simp [predictRequestValidate, hf, logical_rules, not_lt.mpr (le_of_eq hb),
      hb0, not_lt.mpr h350]
  · intro hb
    have hgt : bath > bhk + 2 := by omega
    exact ⟨"Invalid: bath should typically be ≤ (bhk + 2).",
      by simp [predictRequestValidate, hf, logical_rules, hgt]⟩

theorem validation_boundary_witness :
    predictRequestValidate 4 1 700 2 6000 = .ok ⟨4, 1, 700, 2, 6000⟩ :=
  (validation_boundary 4 1 2 700 6000 (by norm_num [fieldErrors])).1
    (by norm_num) (by norm_num)

theorem mem_clientFieldIssues (bhk bath balcony : ℤ) (sqft pps : ℚ) :
    (("BHK must be between 1 and 12." ∈
        clientFieldIssues bhk bath balcony sqft pps) ↔ (bhk < 1 ∨ 12 < bhk)) ∧
    (("Bathrooms must be between 1 and 12." ∈
        clientFieldIssues bhk bath balcony sqft pps) ↔ (bath < 1 ∨ 12 < bath)) ∧
    (("Balconies must be between 0 and 6." ∈
        clientFieldIssues bhk bath balcony sqft pps) ↔ (balcony < 0 ∨ 6 < balcony)) ∧
    (("Total sqft must be > 200." ∈
        clientFieldIssues bhk bath balcony sqft pps) ↔ sqft ≤ 200) ∧
    (("Price per sqft must be > 0." ∈
        clientFieldIssues bhk bath balcony sqft pps) ↔ pps ≤ 0) := by
  unfold clientFieldIssues
  split_ifs <;> simp_all

theorem validate_inputs_mem_of_not_cross (bhk bath balcony : ℤ) (sqft pps : ℚ)
    (l : List String) (h : validate_inputs bhk bath balcony sqft pps = some l)
    (s : String)
    (hs1 : s ≠ "Sqft per BHK should be ≥ 350 (data cleaning rule).")
    (hs2 : s ≠ "Bathrooms should typically be ≤ (BHK + 2).") :
    s ∈ l ↔ s ∈ clientFieldIssues bhk bath balcony sqft pps := by
  simp only [validate_inputs] at h
  split_ifs at h <;> simp at h <;> subst h <;> simp [hs1, hs2]

/-- C8: the client-side `validate_inputs` enumerates every violated
field-level rule at once — for each of the five field-range rules, its
message is in the returned issue list exactly when that rule is
violated, independent of the other rules. -/
theorem client_enumerates_all_field_rules (bhk bath balcony : ℤ)
    (sqft pps : ℚ) (l : List String)
    (h : validate_inputs bhk bath balcony sqft pps = some l) :
    ((bhk < 1 ∨ 12 < bhk) ↔ "BHK must be between 1 and 12." ∈ l) ∧
    ((bath < 1 ∨ 12 < bath) ↔ "Bathrooms must be between 1 and 12." ∈ l) ∧
    ((balcony < 0 ∨ 6 < balcony) ↔ "Balconies must be between 0 and 6." ∈ l) ∧
    (sqft ≤ 200 ↔ "Total sqft must be > 200." ∈ l) ∧
    (pps ≤ 0 ↔ "Price per sqft must be > 0." ∈ l) := by
  obtain ⟨m1, m2, m3, m4, m5⟩ := mem_clientFieldIssues bhk bath balcony sqft pps
  refine ⟨?_, ?_, ?_, ?_, ?_⟩
  · rw [validate_inputs_mem_of_not_cross bhk bath balcony sqft pps l h _
      (by simp) (by simp)]
    exact m1.symm
  · rw [validate_inputs_mem_of_not_cross bhk bath balcony sqft pps l h _
      (by simp) (by simp)]
    exact m2.symm
  · rw [validate_inputs_mem_of_not_cross bhk bath balcony sqft pps l h _
      (by simp) (by simp)]
    exact m3.symm
  · rw [validate_inputs_mem_of_not_cross bhk bath balcony sqft pps l h _
      (by simp) (by simp)]
    exact m4.symm
  · rw [validate_inputs_mem_of_not_cross bhk bath balcony sqft pps l h _
      (by simp) (by simp)]
    exact m5.symm

theorem client_enumerates_all_field_rules_witness :
    ((0 : ℤ) < 1 ∨ (12 : ℤ) < 0) ∧
    ((15 : ℤ) < 1 ∨ (12 : ℤ) < 15) ∧
    "BHK must be between 1 and 12." ∈
      ["BHK must be between 1 and 12.", "Bathrooms must be between 1 and 12.",
        "Bathrooms should typically be ≤ (BHK + 2)."] ∧
    "Bathrooms must be between 1 and 12." ∈
      ["BHK must be between 1 and 12.", "Bathrooms must be between 1 and 12.",
        "Bathrooms should typically be ≤ (BHK + 2)."] := by
  have h := client_enumerates_all_field_rules 0 15 1 1000 6000
    ["BHK must be between 1 and 12.", "Bathrooms must be between 1 and 12.",
      "Bathrooms should typically be ≤ (BHK + 2)."]
    (by norm_num [validate_inputs, clientFieldIssues])
  exact ⟨by norm_num, by norm_num,
    h.1.mp (by norm_num), h.2.1.mp (by norm_num)⟩

theorem thousand_div_lt_350_iff (k : ℤ) (hk : 1 ≤ k) :
    ((1000 : ℚ) / (k : ℚ) < 350 ↔ 3 ≤ k) := by
  have hpos : (0 : ℚ) < (k : ℚ) := by
    exact_mod_cast (by omega : (0 : ℤ) < k)
  rw [div_lt_iff₀ hpos]
  have hcast : ((1000 : ℚ) < 350 * (k : ℚ)) ↔ ((1000 : ℤ) < 350 * k) := by
    exact_mod_cast Iff.rfl
  rw [hcast]
  omega

/-- C9: `GET /predict/bhk` with only the path parameter and the
documented query defaults passes validation exactly when `bhk` is 1 or
2; for every `bhk ≥ 3` the handler never answers 200 (the in-range
values are rejected by the area-per-bedroom rule since
`1000 / bhk < 350`, and values above 12 by the path range check),
whatever the loaded model. -/
theorem get_defaults_validate_iff (bhk : ℤ) :
    ((queryParamErrors bhk 2 1 1000 6000 = [] ∧
      (predictRequestValidate 2 1 1000 bhk 6000).isOk = true) ↔
      (bhk = 1 ∨ bhk = 2)) ∧
    (3 ≤ bhk → ∀ (st : ServerState) (resp : PredictResponse),
      predict_via_query_defaults st bhk ≠ .ok resp) := by
  constructor
  · constructor
    · rintro ⟨hq, hok⟩
      obtain ⟨hk1, hk12, -⟩ := (queryParamErrors_nil_iff bhk 2 1 1000 6000).mp hq
      by_contra hne
      have h3 : 3 ≤ bhk := by omega
      have hf : fieldErrors 2 1 1000 bhk 6000 = [] :=
        (fieldErrors_nil_iff 2 1 1000 bhk 6000).mpr
          (by refine ⟨by norm_num, by norm_num, by norm_num, by norm_num,
            by norm_num, hk1, hk12, by norm_num⟩)
      have hlt : (1000 : ℚ) / (bhk : ℚ) < 350 :=
        (thousand_div_lt_350_iff bhk hk1).mpr h3
      have hble : ¬ ((2 : ℤ) > bhk + 2) := by omega
      have hb0 : ¬ (bhk = 0) := by omega
      simp [predictRequestValidate, hf, logical_rules, hble, hb0, hlt,
        ValidateOutcome.isOk] at hok
    · rintro (rfl | rfl) <;>
        exact ⟨by norm_num [queryParamErrors],
          by norm_num [predictRequestValidate, fieldErrors, logical_rules,
            ValidateOutcome.isOk]⟩
  · intro h3 st resp hok
    unfold predict_via_query_defaults at hok
    by_cases h12 : bhk ≤ 12
    · have hq : queryParamErrors bhk 2 1 1000 6000 = [] :=
        (queryParamErrors_nil_iff bhk 2 1 1000 6000).mpr
          ⟨by omega, h12, by norm_num, by norm_num, by norm_num, by norm_num,
            by norm_num, by norm_num⟩
      have hf : fieldErrors 2 1 1000 bhk 6000 = [] :=
        (fieldErrors_nil_iff 2 1 1000 bhk 6000).mpr
          ⟨by norm_num, by norm_num, by norm_num, by norm_num, by norm_num,
            by omega, h12, by norm_num⟩
      have hlt : (1000 : ℚ) / (bhk : ℚ) < 350 :=
        (thousand_div_lt_350_iff bhk (by omega)).mpr h3
      have hble : ¬ ((2 : ℤ) > bhk + 2) := by omega
      have hb0 : ¬ (bhk = 0) := by omega
      simp [predict_via_query, hq, predictRequestValidate, hf, logical_rules,
        hble, hb0, hlt] at hok
    · have hq : ¬ (queryParamErrors bhk 2 1 1000 6000 = []) := by
        intro hq'
        obtain ⟨-, h12', -⟩ := (queryParamErrors_nil_iff bhk 2 1 1000 6000).mp hq'
        omega
      simp [predict_via_query, List.isEmpty_iff, hq] at hok

theorem get_defaults_validate_iff_witness :
    queryParamErrors 2 2 1 1000 6000 = [] ∧
    (predictRequestValidate 2 1 1000 2 6000).isOk = true :=
  (get_defaults_validate_iff 2).1.mpr (Or.inr rfl)

/-- C10: no evaluation of either validator ever divides by zero.  The
server's cross-field validator (the only place `total_sqft_int / bhk`
is computed) runs only after the field-level check `bhk ≥ 1`, so the
`ZeroDivisionError` outcome is unreachable; the client's advisory area
rule divides only behind the short-circuit guard `bhk >= 1`. -/
theorem validators_never_divide_by_zero (bath balcony bhk : ℤ) (sqft pps : ℚ) :
    predictRequestValidate bath balcony sqft bhk pps ≠ .crash ∧
    validate_inputs bhk bath balcony sqft pps ≠ none := by
  constructor
  · intro h
    by_cases hf : fieldErrors bath balcony sqft bhk pps = []
    · have hk : 1 ≤ bhk :=
        ((fieldErrors_nil_iff bath balcony sqft bhk pps).mp hf).2.2.2.2.2.1
      have hb0 : ¬ (bhk = 0) := by omega
      by_cases hb : bath > bhk + 2
      · simp [predictRequestValidate, hf, logical_rules, hb] at h
      · by_cases hr : sqft / (bhk : ℚ) < 350
        · simp [predictRequestValidate, hf, logical_rules, hb, hb0, hr] at h
        · simp [predictRequestValidate, hf, logical_rules, hb, hb0, hr] at h
    · simp [predictRequestValidate, List.isEmpty_iff, hf] at h
  · intro h
    simp only [validate_inputs] at h
    split_ifs at h <;> simp at h <;>
      (rename_i hcast; rw [Int.cast_eq_zero] at hcast; omega)

end HousePrice
